import Mathlib

/-!
Verification of the image-description test automation framework
(`test_runner.py`): the `TestCase` data model, the Azure and OpenAI
vision clients' response handling, the semantic comparator, and the
`ImageTestRunner` orchestration (`run_test_case`, `run_all_tests`).

Floats are modelled as rationals (`ℚ`); exceptions as `Except String`;
the ambient system (file existence, wall clock) as an explicit `Sys`
record; the two effectful collaborators of the runner (the vision
client and the comparator) as functions returning `Except String`.
-/

namespace ImageTesting

/-- The `TestCase` dataclass of `test_runner.py`. -/
structure TestCase where
  id : Nat
  image_path : String
  expected_description : String
  actual_description : String := ""
  similarity_score : ℚ := 0
  passed : Bool := false
  timestamp : String := ""
deriving Repr, DecidableEq

/-! ## Azure Computer Vision client (`AzureComputerVisionClient.describe_image`) -/

/-- One entry of the `captions` list in an Azure analyze response. -/
structure AzureCaption where
  text : String
  confidence : ℚ
deriving Repr, DecidableEq

/-- The `description` object of an Azure analyze response; the
`captions` key may be absent (`none`). -/
structure AzureDescription where
  captions : Option (List AzureCaption)
deriving Repr, DecidableEq

/-- The JSON body of an Azure analyze response; the `description` key
may be absent (`none`). -/
structure AzureResult where
  description : Option AzureDescription
deriving Repr, DecidableEq

/-- An HTTP response from the Azure analyze endpoint. -/
structure AzureResponse where
  status_code : Nat
  body : AzureResult
  text : String
deriving Repr, DecidableEq

/-- The caption-extraction logic of `AzureComputerVisionClient.describe_image`
for a 200 response: if `description` and `description.captions` are present
and the list is non-empty, return the first caption's text, else the
sentinel `"No description available"`. -/
def azureExtract (result : AzureResult) : String :=
  match result.description with
  | some d =>
    match d.captions with
    | some captions =>
      match captions with
      | c :: _ => c.text
      | [] => "No description available"
    | none => "No description available"
  | none => "No description available"

/-- `AzureComputerVisionClient.describe_image`, modelled on the received
HTTP response: on status 200 extract a caption, otherwise raise
(`Except.error`) with the Azure error message. -/
def AzureComputerVisionClient.describe_image (resp : AzureResponse) : Except String String :=
  if resp.status_code = 200 then
    Except.ok (azureExtract resp.body)
  else
    Except.error ("Azure API Error: " ++ toString resp.status_code ++ " - " ++ resp.text)

/-! ## OpenAI client MIME inference (`OpenAIVisionClient.describe_image`) -/

/-- Index of the last occurrence of `c` in the list, if any. -/
def lastIdx (c : Char) : List Char → Option Nat
  | [] => none
  | x :: xs =>
    match lastIdx c xs with
    | some i => some (i + 1)
    | none => if x = c then some 0 else none

/-- The extension component of `os.path.splitext` (posix): the suffix
starting at the last dot, provided that dot lies after the last path
separator and the characters between the separator and the dot are not
all dots (so leading dots of a basename never start an extension). -/
def splitextExt (p : String) : String :=
  let cs := p.toList
  let sepIndex : Int := match lastIdx '/' cs with | some i => (i : Int) | none => -1
  let dotIndex : Int := match lastIdx '.' cs with | some i => (i : Int) | none => -1
  if sepIndex < dotIndex then
    if ((cs.drop (sepIndex + 1).toNat).take (dotIndex - sepIndex - 1).toNat).any (· ≠ '.') then
      String.mk (cs.drop dotIndex.toNat)
    else ""
  else ""

/-- `str.lower`, character by character. -/
def lowerStr (s : String) : String := String.mk (s.data.map Char.toLower)

/-- The MIME-type inference of `OpenAIVisionClient.describe_image`:
lowercase the extension of the path and look it up in the explicit
mapping, defaulting to `image/jpeg`. -/
def mime_type (image_path : String) : String :=
  let ext := lowerStr (splitextExt image_path)
  if ext = ".jpg" then "image/jpeg"
  else if ext = ".jpeg" then "image/jpeg"
  else if ext = ".png" then "image/png"
  else if ext = ".gif" then "image/gif"
  else if ext = ".webp" then "image/webp"
  else "image/jpeg"

/-! ## Semantic comparator (`SemanticComparator.compare`) -/

/-- `sentence_transformers.util.cos_sim` on two embedding vectors of a
real inner-product space: the inner product divided by the product of
the norms. -/
noncomputable def cos_sim {E : Type} [NormedAddCommGroup E] [InnerProductSpace ℝ E]
    (u v : E) : ℝ :=
  (inner u v : ℝ) / (norm u * norm v)

/-- `SemanticComparator.compare`: encode both texts with the embedding
model and return their cosine similarity, unmodified (the code performs
no clamping). -/
noncomputable def SemanticComparator.compare {E : Type} [NormedAddCommGroup E]
    [InnerProductSpace ℝ E] (encode : String → E) (text1 text2 : String) : ℝ :=
  cos_sim (encode text1) (encode text2)

/-! ## Test runner (`ImageTestRunner`) -/

/-- The ambient system effects `run_test_case` consults: `os.path.exists`
and `datetime.now().isoformat()`. -/
structure Sys where
  fileExists : String → Bool
  now : String

/-- The `ImageTestRunner` object: its vision client and comparator are
modelled as fallible functions, the threshold as the rational stored by
the constructor. -/
structure ImageTestRunner where
  vision_client : String → Except String String
  comparator : String → String → Except String ℚ
  similarity_threshold : ℚ

/-- `ImageTestRunner.__init__`: stores the client, the comparator and
the threshold verbatim; no validation of the threshold is performed. -/
def ImageTestRunner.init (vision_client : String → Except String String)
    (comparator : String → String → Except String ℚ)
    (similarity_threshold : ℚ) : ImageTestRunner :=
  { vision_client := vision_client
    comparator := comparator
    similarity_threshold := similarity_threshold }

/-- `ImageTestRunner.run_test_case`, instrumented with the sequence of
values assigned to `actual_description` during the attempt (in program
order). The control flow mirrors the source: missing file raises
`FileNotFoundError`; the provider result is assigned to
`actual_description` before the comparator runs; the `except` handler
overwrites `actual_description` with `"Error: " ++ message`, sets
`passed` to `false` and stamps the timestamp. -/
def ImageTestRunner.run_test_case_writes (r : ImageTestRunner) (sys : Sys)
    (tc : TestCase) : TestCase × List String :=
  if sys.fileExists tc.image_path then
    match r.vision_client tc.image_path with
    | Except.ok desc =>
      match r.comparator tc.expected_description desc with
      | Except.ok score =>
        ({ tc with
            actual_description := desc
            similarity_score := score
            passed := decide (score ≥ r.similarity_threshold)
            timestamp := sys.now },
         [desc])
      | Except.error e =>
        ({ tc with
            actual_description := "Error: " ++ e
            passed := false
            timestamp := sys.now },
         [desc, "Error: " ++ e])
    | Except.error e =>
      ({ tc with
          actual_description := "Error: " ++ e
          passed := false
          timestamp := sys.now },
       ["Error: " ++ e])
  else
    ({ tc with
        actual_description := "Error: " ++ ("Image file not found: " ++ tc.image_path)
        passed := false
        timestamp := sys.now },
     ["Error: " ++ ("Image file not found: " ++ tc.image_path)])

/-- `ImageTestRunner.run_test_case`: the returned (mutated) test case. -/
def ImageTestRunner.run_test_case (r : ImageTestRunner) (sys : Sys)
    (tc : TestCase) : TestCase :=
  (r.run_test_case_writes sys tc).1

/-- Which error, if any, `run_test_case` catches for a case: the missing
file, a provider exception, or a comparator exception, in that order. -/
def caseError (r : ImageTestRunner) (sys : Sys) (tc : TestCase) : Option String :=
  if sys.fileExists tc.image_path then
    match r.vision_client tc.image_path with
    | Except.ok desc =>
      match r.comparator tc.expected_description desc with
      | Except.ok _ => none
      | Except.error e => some e
    | Except.error e => some e
  else
    some ("Image file not found: " ++ tc.image_path)

/-- The report dictionary returned by `ImageTestRunner.run_all_tests`. -/
structure Report where
  test_cases : List TestCase
  total_tests : Nat
  passed : Nat
  failed : Nat
  success_rate : ℚ
  timestamp : String
deriving Repr, DecidableEq

/-- The loop body of `run_all_tests`: run each case in input order,
append its result, and count the passed ones. -/
def runLoop (r : ImageTestRunner) (sys : Sys) : List TestCase → List TestCase × Nat
  | [] => ([], 0)
  | tc :: rest =>
    let result := r.run_test_case sys tc
    let p := runLoop r sys rest
    (result :: p.1, (if result.passed then 1 else 0) + p.2)

/-- `ImageTestRunner.run_all_tests`: run every case, then assemble the
report with `failed = total - passed` and
`success_rate = passed / total * 100` guarded against an empty batch. -/
def ImageTestRunner.run_all_tests (r : ImageTestRunner) (sys : Sys)
    (cases : List TestCase) : Report :=
  let p := runLoop r sys cases
  { test_cases := p.1
    total_tests := cases.length
    passed := p.2
    failed := cases.length - p.2
    success_rate := if cases.isEmpty then 0 else ((p.2 : ℚ) / (cases.length : ℚ)) * 100
    timestamp := sys.now }

/-- How many times the attempt assigns `actual_description`: twice when
the provider succeeded and the comparator then raised, once otherwise. -/
def writeCount (r : ImageTestRunner) (sys : Sys) (tc : TestCase) : Nat :=
  if sys.fileExists tc.image_path then
    match r.vision_client tc.image_path with
    | Except.ok desc =>
      match r.comparator tc.expected_description desc with
      | Except.ok _ => 1
      | Except.error _ => 2
    | Except.error _ => 1
  else 1

/-! ## Concrete fixtures used by witnesses -/

/-- A runner whose collaborators always succeed with fixed values. -/
def okRunner : ImageTestRunner :=
  ImageTestRunner.init (fun _ => Except.ok "a dog in a park")
    (fun _ _ => Except.ok (4/5)) (7/10)

/-- A runner whose vision client always raises. -/
def errRunner : ImageTestRunner :=
  ImageTestRunner.init (fun _ => Except.error "API down")
    (fun _ _ => Except.ok (4/5)) (7/10)

/-- A system in which every file exists. -/
def okSys : Sys := Sys.mk (fun _ => true) "2024-01-01"

/-- A system in which no file exists. -/
def noFileSys : Sys := Sys.mk (fun _ => false) "2024-01-01"

/-- A freshly created test case. -/
def sampleCase : TestCase := ⟨1, "dog.png", "a dog", "", 0, false, ""⟩

/-! ## Helper lemmas about the runner -/

theorem runLoop_fst (r : ImageTestRunner) (sys : Sys) (cases : List TestCase) :
    (runLoop r sys cases).1 = cases.map (r.run_test_case sys) := by
  induction cases with
  | nil => rfl
  | cons tc rest ih => simp [runLoop, ih]

theorem runLoop_snd (r : ImageTestRunner) (sys : Sys) (cases : List TestCase) :
    (runLoop r sys cases).2 =
      ((runLoop r sys cases).1.filter (fun tc => tc.passed)).length := by
  induction cases with
  | nil => rfl
  | cons tc rest ih =>
    simp only [runLoop, List.filter]
    cases hp : (r.run_test_case sys tc).passed <;> simp [hp, ih]
    omega

theorem runLoop_snd_le (r : ImageTestRunner) (sys : Sys) (cases : List TestCase) :
    (runLoop r sys cases).2 ≤ cases.length := by
  rw [runLoop_snd]
  calc ((runLoop r sys cases).1.filter (fun tc => tc.passed)).length
      ≤ (runLoop r sys cases).1.length := List.length_filter_le _ _
    _ = cases.length := by rw [runLoop_fst]; exact List.length_map _ _

theorem run_test_case_error (r : ImageTestRunner) (sys : Sys) (tc : TestCase)
    (msg : String) (h : caseError r sys tc = some msg) :
    r.run_test_case sys tc =
      { tc with
          actual_description := "Error: " ++ msg
          passed := false
          timestamp := sys.now } := by
  unfold caseError at h
  unfold ImageTestRunner.run_test_case ImageTestRunner.run_test_case_writes
  by_cases hf : sys.fileExists tc.image_path = true
  · simp only [hf, if_true] at h ⊢
    cases hv : r.vision_client tc.image_path with
    | ok desc =>
      simp only [hv] at h ⊢
      cases hc : r.comparator tc.expected_description desc with
      | ok s => simp [hc] at h
      | error e => simp only [hc] at h ⊢; cases h; rfl
    | error e => simp only [hv] at h ⊢; cases h; rfl
  · rw [if_neg hf] at h ⊢
    cases h
    rfl

theorem run_test_case_success (r : ImageTestRunner) (sys : Sys) (tc : TestCase)
    (d : String) (s : ℚ)
    (hf : sys.fileExists tc.image_path = true)
    (hv : r.vision_client tc.image_path = Except.ok d)
    (hc : r.comparator tc.expected_description d = Except.ok s) :
    r.run_test_case sys tc =
      { tc with
          actual_description := d
          similarity_score := s
          passed := decide (s ≥ r.similarity_threshold)
          timestamp := sys.now } := by
  simp [ImageTestRunner.run_test_case, ImageTestRunner.run_test_case_writes, hf, hv, hc]

/-! ## Claims -/

/-- C1: `run_all_tests` never propagates a per-case exception: every case
of the batch is executed in order, and a case for which any error is
caught (missing image file, provider failure, comparator failure)
terminates with `passed = false`, `actual_description` equal to
`"Error: "` followed by the exception message, and a set (non-empty)
timestamp, while every other case still runs and can score normally. -/
theorem C1_error_isolation (r : ImageTestRunner) (sys : Sys) (hnow : sys.now ≠ "") :
    (∀ cases : List TestCase,
      (r.run_all_tests sys cases).test_cases = cases.map (r.run_test_case sys)) ∧
    (∀ tc msg, caseError r sys tc = some msg →
      (r.run_test_case sys tc).passed = false ∧
      (r.run_test_case sys tc).actual_description = "Error: " ++ msg ∧
      (r.run_test_case sys tc).timestamp ≠ "") := by
  constructor
  · intro cases
    simp [ImageTestRunner.run_all_tests, runLoop_fst]
  · intro tc msg h
    rw [run_test_case_error r sys tc msg h]
    exact ⟨rfl, rfl, hnow⟩

/-- Witness for C1: a batch of a missing-file case followed by a normal
case; the first records the error, the second still passes. -/
theorem C1_error_isolation_witness :
    (okRunner.run_test_case noFileSys sampleCase).passed = false ∧
    (okRunner.run_test_case noFileSys sampleCase).actual_description =
      "Error: " ++ "Image file not found: dog.png" := by
  have h := (C1_error_isolation okRunner noFileSys (by decide)).2 sampleCase
    ("Image file not found: " ++ "dog.png") rfl
  exact ⟨h.1, h.2.1⟩

/-- C2: on the success path (file exists, provider and comparator both
succeed) the case passes exactly when its similarity score reaches the
threshold given to the constructor, and the timestamp is set. -/
theorem C2_pass_iff_threshold (r : ImageTestRunner) (sys : Sys) (tc : TestCase)
    (d : String) (s : ℚ)
    (hf : sys.fileExists tc.image_path = true)
    (hv : r.vision_client tc.image_path = Except.ok d)
    (hc : r.comparator tc.expected_description d = Except.ok s)
    (hnow : sys.now ≠ "") :
    ((r.run_test_case sys tc).passed = true ↔
      (r.run_test_case sys tc).similarity_score ≥ r.similarity_threshold) ∧
    (r.run_test_case sys tc).similarity_score = s ∧
    (r.run_test_case sys tc).timestamp ≠ "" := by
  rw [run_test_case_success r sys tc d s hf hv hc]
  refine ⟨?_, rfl, hnow⟩
  simp

/-- Witness for C2: score 4/5 against threshold 7/10 passes. -/
theorem C2_pass_iff_threshold_witness :
    (okRunner.run_test_case okSys sampleCase).passed = true := by
  have h := C2_pass_iff_threshold okRunner okSys sampleCase "a dog in a park" (4/5)
    rfl rfl rfl (by decide)
  refine h.1.mpr ?_
  rw [h.2.1]
  norm_num [okRunner, ImageTestRunner.init]

/-- C3: the report counts `passed` as the number of result cases with
`passed = true`, derives `failed = total_tests - passed` (so
`passed + failed = total_tests`), computes
`success_rate = passed / total_tests * 100` for a non-empty batch, and
returns `success_rate = 0` for an empty batch. -/
theorem C3_report_aggregation (r : ImageTestRunner) (sys : Sys) (cases : List TestCase) :
    (r.run_all_tests sys cases).passed =
      ((r.run_all_tests sys cases).test_cases.filter (fun tc => tc.passed)).length ∧
    (r.run_all_tests sys cases).failed =
      (r.run_all_tests sys cases).total_tests - (r.run_all_tests sys cases).passed ∧
    (r.run_all_tests sys cases).passed + (r.run_all_tests sys cases).failed =
      (r.run_all_tests sys cases).total_tests ∧
    (cases ≠ [] → (r.run_all_tests sys cases).success_rate =
      ((r.run_all_tests sys cases).passed : ℚ) /
        ((r.run_all_tests sys cases).total_tests : ℚ) * 100) ∧
    (cases = [] → (r.run_all_tests sys cases).success_rate = 0) := by
  have hle := runLoop_snd_le r sys cases
  refine ⟨?_, ?_, ?_, ?_, ?_⟩
  · simpa [ImageTestRunner.run_all_tests] using runLoop_snd r sys cases
  · simp [ImageTestRunner.run_all_tests]
  · simp only [ImageTestRunner.run_all_tests]
    omega
  · intro hne
    simp [ImageTestRunner.run_all_tests, hne]
  · intro he
    subst he
    simp [ImageTestRunner.run_all_tests]

/-- Witness for C3: the empty batch reports rate 0; a singleton batch
reports `passed / total * 100`. -/
theorem C3_report_aggregation_witness :
    (okRunner.run_all_tests okSys []).success_rate = 0 ∧
    (okRunner.run_all_tests okSys [sampleCase]).success_rate =
      ((okRunner.run_all_tests okSys [sampleCase]).passed : ℚ) /
        ((okRunner.run_all_tests okSys [sampleCase]).total_tests : ℚ) * 100 :=
  ⟨(C3_report_aggregation okRunner okSys []).2.2.2.2 rfl,
   (C3_report_aggregation okRunner okSys [sampleCase]).2.2.2.1 (List.cons_ne_nil _ _)⟩

/-- C4 (code bug): `SemanticComparator.compare` performs no clamping: for
an embedding model sending the two texts to antipodal unit vectors it
returns the raw cosine similarity `-1`, which lies outside `[0, 1]`
although the function's doc string promises a value between 0 and 1. -/
theorem C4_compare_unclamped :
    SemanticComparator.compare (fun s => if s = "a" then (1 : ℝ) else (-1 : ℝ)) "a" "b" = -1 ∧
    ¬ (0 ≤ SemanticComparator.compare
        (fun s => if s = "a" then (1 : ℝ) else (-1 : ℝ)) "a" "b") := by
  have h : SemanticComparator.compare
      (fun s => if s = "a" then (1 : ℝ) else (-1 : ℝ)) "a" "b" = -1 := by
    simp [SemanticComparator.compare, cos_sim, RCLike.inner_apply]
  refine ⟨h, ?_⟩
  rw [h]
  norm_num

/-- C5: on a 200 Azure response, a missing `description` key, a missing
`captions` key, or an empty caption list all yield the sentinel
`"No description available"` without raising; a non-empty caption list
yields the text of its first caption. -/
theorem C5_azure_sentinel (resp : AzureResponse) (h200 : resp.status_code = 200) :
    ((resp.body.description = none ∨
        (∃ d, resp.body.description = some d ∧ d.captions = none) ∨
        (∃ d, resp.body.description = some d ∧ d.captions = some [])) →
      AzureComputerVisionClient.describe_image resp =
        Except.ok "No description available") ∧
    (∀ d c cs, resp.body.description = some d → d.captions = some (c :: cs) →
      AzureComputerVisionClient.describe_image resp = Except.ok c.text) := by
  constructor
  · rintro (h | ⟨d, hd, hc⟩ | ⟨d, hd, hc⟩) <;>
      simp [AzureComputerVisionClient.describe_image, h200, azureExtract, *]
  · intro d c cs hd hc
    simp [AzureComputerVisionClient.describe_image, h200, azureExtract, hd, hc]

/-- Witness for C5: a response with one caption returns its text; a
response whose body lacks `description` returns the sentinel. -/
theorem C5_azure_sentinel_witness :
    AzureComputerVisionClient.describe_image
      ⟨200, ⟨some ⟨some [⟨"a cat", 9/10⟩]⟩⟩, "ok"⟩ = Except.ok "a cat" ∧
    AzureComputerVisionClient.describe_image ⟨200, ⟨none⟩, "ok"⟩ =
      Except.ok "No description available" :=
  ⟨(C5_azure_sentinel ⟨200, ⟨some ⟨some [⟨"a cat", 9/10⟩]⟩⟩, "ok"⟩ rfl).2
      ⟨some [⟨"a cat", 9/10⟩]⟩ ⟨"a cat", 9/10⟩ [] rfl rfl,
   (C5_azure_sentinel ⟨200, ⟨none⟩, "ok"⟩ rfl).1 (Or.inl rfl)⟩

/-- C6 (counterexample): when the provider succeeds and the comparator
then raises, the attempt assigns `actual_description` twice — first the
provider text, then the error placeholder that overwrites it — so the
field is not set exactly once per execution attempt. -/
theorem C6_counterexample :
    (ImageTestRunner.run_test_case_writes
      (ImageTestRunner.init (fun _ => Except.ok "a cat on a mat")
        (fun _ _ => Except.error "comparator crashed") (7/10))
      (Sys.mk (fun _ => true) "t0")
      ⟨1, "img.png", "a cat", "", 0, false, ""⟩).2 =
      ["a cat on a mat", "Error: comparator crashed"] ∧
    ("a cat on a mat" : String) ≠ "Error: comparator crashed" :=
  ⟨rfl, by decide⟩

/-- C6 (amended): `actual_description` is assigned at most twice per
execution attempt — twice exactly when the provider succeeded and the
comparator then raised (the provider text being overwritten by the error
placeholder), once in every other path — and the field always ends as
the last value written. -/
theorem C6_writes_amended (r : ImageTestRunner) (sys : Sys) (tc : TestCase) :
    ((r.run_test_case_writes sys tc).2).length = writeCount r sys tc ∧
    ((r.run_test_case_writes sys tc).2).length ≤ 2 ∧
    (r.run_test_case_writes sys tc).1.actual_description =
      ((r.run_test_case_writes sys tc).2).getLastD "" := by
  unfold ImageTestRunner.run_test_case_writes writeCount
  by_cases hf : sys.fileExists tc.image_path = true
  · simp only [hf, if_true]
    cases hv : r.vision_client tc.image_path with
    | ok desc =>
      cases hc : r.comparator tc.expected_description desc with
      | ok s => simp [hc]
      | error e => simp [hc]
    | error e => simp [hv]
  · rw [if_neg hf, if_neg hf]
    simp

/-- C7: `run_all_tests` processes the cases one at a time in input
sequence order, and the report's `test_cases` lists the executed
snapshots in exactly the input order. -/
theorem C7_input_order (r : ImageTestRunner) (sys : Sys) (cases : List TestCase) :
    (r.run_all_tests sys cases).test_cases = cases.map (r.run_test_case sys) := by
  simp [ImageTestRunner.run_all_tests, runLoop_fst]

/-- C8: the MIME type is determined by the lowercased file extension via
the explicit mapping jpg/jpeg → image/jpeg, png → image/png,
gif → image/gif, webp → image/webp, with every other extension
(including none) defaulting to image/jpeg. -/
theorem C8_mime_mapping (p : String) :
    (lowerStr (splitextExt p) = ".jpg" → mime_type p = "image/jpeg") ∧
    (lowerStr (splitextExt p) = ".jpeg" → mime_type p = "image/jpeg") ∧
    (lowerStr (splitextExt p) = ".png" → mime_type p = "image/png") ∧
    (lowerStr (splitextExt p) = ".gif" → mime_type p = "image/gif") ∧
    (lowerStr (splitextExt p) = ".webp" → mime_type p = "image/webp") ∧
    (lowerStr (splitextExt p) ≠ ".jpg" → lowerStr (splitextExt p) ≠ ".jpeg" →
      lowerStr (splitextExt p) ≠ ".png" → lowerStr (splitextExt p) ≠ ".gif" →
      lowerStr (splitextExt p) ≠ ".webp" → mime_type p = "image/jpeg") := by
  refine ⟨fun h => ?_, fun h => ?_, fun h => ?_, fun h => ?_, fun h => ?_,
    fun h1 h2 h3 h4 h5 => ?_⟩ <;>
    simp [mime_type, *]

/-- Witness for C8: an uppercase `.PNG` extension maps to `image/png`,
and a path without extension defaults to `image/jpeg`. -/
theorem C8_mime_mapping_witness :
    lowerStr (splitextExt "photo.PNG") = ".png" ∧ mime_type "photo.PNG" = "image/png" ∧
    mime_type "archive" = "image/jpeg" :=
  ⟨by decide, (C8_mime_mapping "photo.PNG").2.2.1 (by decide),
   (C8_mime_mapping "archive").2.2.2.2.2 (by decide) (by decide) (by decide)
     (by decide) (by decide)⟩

/-- C9: the error handler of `run_test_case` writes only
`actual_description`, `passed` and `timestamp`: on every caught-error
path `similarity_score` (and the identity fields) keep their prior
values, so a case created with the default score 0 that fails still
reports `similarity_score = 0`. -/
theorem C9_error_frame (r : ImageTestRunner) (sys : Sys) (tc : TestCase)
    (msg : String) (h : caseError r sys tc = some msg) :
    (r.run_test_case sys tc).similarity_score = tc.similarity_score ∧
    (r.run_test_case sys tc).id = tc.id ∧
    (r.run_test_case sys tc).image_path = tc.image_path ∧
    (r.run_test_case sys tc).expected_description = tc.expected_description ∧
    (tc.similarity_score = 0 → (r.run_test_case sys tc).similarity_score = 0) := by
  rw [run_test_case_error r sys tc msg h]
  exact ⟨rfl, rfl, rfl, rfl, fun h0 => h0⟩

/-- Witness for C9: a provider failure leaves the default score 0. -/
theorem C9_error_frame_witness :
    (errRunner.run_test_case okSys sampleCase).similarity_score = 0 :=
  (C9_error_frame errRunner okSys sampleCase "API down" rfl).2.2.2.2 rfl

/-- C10: the constructor stores any threshold verbatim (no validation),
and the success-path pass decision compares the score against exactly
that value, so a threshold above every attainable score makes every case
fail. -/
theorem C10_threshold_verbatim (vc : String → Except String String)
    (comp : String → String → Except String ℚ) (t : ℚ) :
    (ImageTestRunner.init vc comp t).similarity_threshold = t ∧
    (∀ sys tc d s, sys.fileExists tc.image_path = true →
      vc tc.image_path = Except.ok d →
      comp tc.expected_description d = Except.ok s →
      (((ImageTestRunner.init vc comp t).run_test_case sys tc).passed = true ↔ s ≥ t) ∧
      (s < t → ((ImageTestRunner.init vc comp t).run_test_case sys tc).passed = false)) := by
  refine ⟨rfl, ?_⟩
  intro sys tc d s hf hv hc
  rw [run_test_case_success (ImageTestRunner.init vc comp t) sys tc d s hf hv hc]
  constructor
  · simp [ImageTestRunner.init]
  · intro hlt
    simp only [decide_eq_false_iff_not, ge_iff_le, ImageTestRunner.init]
    exact not_le.mpr hlt

/-- Witness for C10: with threshold 3/2 (outside [0,1]) a perfect score
of 1 still fails. -/
theorem C10_threshold_verbatim_witness :
    (ImageTestRunner.init (fun _ => Except.ok "a dog in a park")
      (fun _ _ => Except.ok 1) (3/2)).similarity_threshold = 3/2 ∧
    ((ImageTestRunner.init (fun _ => Except.ok "a dog in a park")
      (fun _ _ => Except.ok 1) (3/2)).run_test_case okSys sampleCase).passed = false := by
  have h := C10_threshold_verbatim (fun _ => Except.ok "a dog in a park")
    (fun _ _ => Except.ok 1) (3/2)
  exact ⟨h.1, (h.2 okSys sampleCase "a dog in a park" 1 rfl rfl rfl).2 (by norm_num)⟩

end ImageTesting
